import Mathlib

/-
Verification of the incremental-ingestion notebook
(04-Databricks/4.0-Incremental-Data-Ingestion).

The notebook defines two Python functions, `autoload_to_table` and
`block_until_stream_is_ready`, and calls a teardown helper `DA.cleanup`.
Below, the Spark builder chain is embedded as pure record-building
functions, and the polling loop as a fuel-indexed recursion over an
abstract observation function giving the value of
`len(query.recentProgress)` at each successive poll.
-/

/-- A streaming read configuration: the format set by `.format(...)` and the
option pairs accumulated, in call order, by `.option(k, v)`. -/
structure DataStreamReader where
  fmt : String
  opts : List (String × String)

/-- `spark.readStream`: the initial reader, before any `.format`/`.option`. -/
def spark.readStream : DataStreamReader :=
  ⟨"", []⟩

/-- `.format(s)` on a reader. -/
def DataStreamReader.format (r : DataStreamReader) (s : String) : DataStreamReader :=
  { r with fmt := s }

/-- `.option(k, v)` on a reader: appends the pair to the configured options. -/
def DataStreamReader.option (r : DataStreamReader) (k v : String) : DataStreamReader :=
  { r with opts := r.opts ++ [(k, v)] }

/-- The streaming dataframe produced by `.load(path)`: the reader
configuration plus the source path. -/
structure DataFrame where
  reader : DataStreamReader
  sourcePath : String

/-- `.load(path)` on a reader. -/
def DataStreamReader.load (r : DataStreamReader) (path : String) : DataFrame :=
  ⟨r, path⟩

/-- A streaming write configuration: the dataframe being written and the
option pairs accumulated, in call order, by `.option(k, v)`. -/
structure DataStreamWriter where
  df : DataFrame
  opts : List (String × String)

/-- `.writeStream` on a dataframe. -/
def DataFrame.writeStream (df : DataFrame) : DataStreamWriter :=
  ⟨df, []⟩

/-- `.option(k, v)` on a writer: appends the pair to the configured options. -/
def DataStreamWriter.option (w : DataStreamWriter) (k v : String) : DataStreamWriter :=
  { w with opts := w.opts ++ [(k, v)] }

/-- The started streaming query handle returned by `.table(name)`: issuing
this call is the request to the engine to start the continuous job. -/
structure StreamingQuery where
  writer : DataStreamWriter
  tableName : String

/-- `.table(name)` on a writer: starts the job and returns its handle. -/
def DataStreamWriter.table (w : DataStreamWriter) (name : String) : StreamingQuery :=
  ⟨w, name⟩

/-- The notebook's `autoload_to_table(data_source, source_format, table_name,
checkpoint_directory)`: the exact builder chain of the source, with no
branching and no input validation. -/
def autoload_to_table (data_source source_format table_name checkpoint_directory : String) :
    StreamingQuery :=
  ((((((spark.readStream.format "cloudFiles").option "cloudFiles.format"
      source_format).option "cloudFiles.schemaLocation"
      checkpoint_directory).load data_source).writeStream.option "checkpointLocation"
      checkpoint_directory).option "mergeSchema" "true").table table_name

/-- The body of `block_until_stream_is_ready`'s `while` loop.
`recentLen i` is the value `len(query.recentProgress)` observed at the
i-th poll of the handle; `min_batches` is the threshold (a Python int,
so modelled as `Int`); `fuel` bounds how many loop iterations we unroll
(the Python loop is unbounded). The result is `some i` when the loop
exits after `i` iterations — `i` is then exactly the number of
`time.sleep(5)` calls performed — and `none` when the loop is still
running after `fuel` iterations. The test runs before any sleep, as in
the source. -/
def block_until_loop (recentLen : Nat → Nat) (min_batches : Int) :
    Nat → Nat → Option Nat
  | 0, _ => none
  | fuel + 1, i =>
    if (recentLen i : Int) < min_batches then
      block_until_loop recentLen min_batches fuel (i + 1)
    else
      some i

/-- The notebook's `block_until_stream_is_ready(query, min_batches=2)`:
runs the polling loop from the first observation, with the source's
default threshold of 2. -/
def block_until_stream_is_ready (recentLen : Nat → Nat) (fuel : Nat)
    (min_batches : Int := 2) : Option Nat :=
  block_until_loop recentLen min_batches fuel 0

/-- Status of one streaming job handle tracked by the session. -/
inductive JobStatus where
  | configured
  | running
  | stopped
  | failed

/-- Modelled from the spec: stopping one job handle during teardown
("stops all running job handles"; "teardown invoked on an already-stopped
job must be a no-op rather than an error"). The definition of `DA.cleanup`
lives in the `./Includes/4.0-setup` script, which is not present under
src/; only its call site is. A running job becomes stopped; any other
status is left untouched, and no error path exists. -/
def JobStatus.stop : JobStatus → JobStatus
  | .running => .stopped
  | s => s

/-- Session state seen by teardown: the tracked job handles and whether the
demonstration resources (working/checkpoint directories) are provisioned. -/
structure SysState where
  jobs : List JobStatus
  provisioned : Bool

/-- Modelled from the spec: `teardown()` / `DA.cleanup` "stops all running
job handles and releases any demonstration-only provisioned resources
(working directories, checkpoint directories)". -/
def teardown (s : SysState) : SysState :=
  ⟨s.jobs.map JobStatus.stop, false⟩

/-- Stopping a job twice is the same as stopping it once. -/
theorem JobStatus.stop_stop (j : JobStatus) : j.stop.stop = j.stop := by
  cases j <;> rfl

/-- C1: `block_until_stream_is_ready` returns only when the observed
processed-batch count (the length of the handle's `recentProgress` list)
is at least the threshold: whenever the loop exits with final poll index
`j`, the count observed at that poll is at least `min_batches`. -/
theorem block_until_returns_only_when_ready (recentLen : Nat → Nat)
    (min_batches : Int) (fuel i j : Nat)
    (h : block_until_loop recentLen min_batches fuel i = some j) :
    min_batches ≤ (recentLen j : Int) := by
  induction fuel generalizing i with
  | zero => simp [block_until_loop] at h
  | succ n ih =>
    rw [block_until_loop] at h
    by_cases hc : (recentLen i : Int) < min_batches
    · rw [if_pos hc] at h
      exact ih _ h
    · rw [if_neg hc] at h
      cases h
      exact le_of_not_lt hc

/-- C1 witness: with counts 0,1,2,... and threshold 2, the loop exits at
poll 2, where the observed count 2 is at least 2. -/
theorem block_until_returns_only_when_ready_witness :
    block_until_loop (fun n => n) 2 5 0 = some 2 ∧ (2 : Int) ≤ ((2 : Nat) : Int) :=
  ⟨rfl, block_until_returns_only_when_ready (fun n => n) 2 5 0 2 rfl⟩

/-- C3: on a stalled job whose observed batch count stays below the
threshold at every poll, the loop never exits: for every number of
iterations unrolled, it is still running (no timeout, no cancellation). -/
theorem block_until_stalled_never_returns (recentLen : Nat → Nat)
    (min_batches : Int) (h : ∀ i, (recentLen i : Int) < min_batches)
    (fuel i : Nat) :
    block_until_loop recentLen min_batches fuel i = none := by
  induction fuel generalizing i with
  | zero => simp [block_until_loop]
  | succ n ih =>
    rw [block_until_loop, if_pos (h i)]
    exact ih _

/-- C3 witness: a handle stuck at 0 observed batches with threshold 2 is
still looping after 7 iterations. -/
theorem block_until_stalled_never_returns_witness :
    (∀ i : Nat, (((fun _ : Nat => (0 : Nat)) i : Nat) : Int) < 2) ∧
      block_until_loop (fun _ : Nat => (0 : Nat)) 2 7 0 = none :=
  ⟨fun _ => by norm_num,
    block_until_stalled_never_returns (fun _ : Nat => (0 : Nat)) 2
      (fun _ => by norm_num) 7 0⟩

/-- C8: called without an explicit threshold, `block_until_stream_is_ready`
uses the default `min_batches = 2`: the one-argument call is definitionally
the call with threshold 2. -/
theorem block_until_default_is_two (recentLen : Nat → Nat) (fuel : Nat) :
    block_until_stream_is_ready recentLen fuel =
      block_until_stream_is_ready recentLen fuel 2 :=
  rfl

/-- C9: the loop tests its condition before sleeping: if the count observed
at the very first poll already meets the threshold (in particular whenever
`min_batches ≤ 0`), the helper returns at once with zero sleep iterations
performed. -/
theorem block_until_immediate_return (recentLen : Nat → Nat)
    (min_batches : Int) (fuel : Nat)
    (h : min_batches ≤ (recentLen 0 : Int)) :
    block_until_stream_is_ready recentLen (fuel + 1) min_batches = some 0 := by
  rw [block_until_stream_is_ready, block_until_loop, if_neg (not_lt.mpr h)]

/-- C9 witness: with a count of 0 already observed and threshold 0, the
helper returns immediately, having slept zero times. -/
theorem block_until_immediate_return_witness :
    (0 : Int) ≤ (((fun _ : Nat => (0 : Nat)) 0 : Nat) : Int) ∧
      block_until_stream_is_ready (fun _ : Nat => (0 : Nat)) 1 0 = some 0 :=
  ⟨by norm_num,
    block_until_immediate_return (fun _ : Nat => (0 : Nat)) 0 0 (by norm_num)⟩

/-- C4: the single `checkpoint_directory` argument is used for both kinds of
persisted state: it is passed as the `cloudFiles.schemaLocation` option of
the streaming read and as the `checkpointLocation` option of the streaming
write. -/
theorem autoload_checkpoint_dual_use (a b c d : String) :
    ("cloudFiles.schemaLocation", d) ∈
        (autoload_to_table a b c d).writer.df.reader.opts ∧
      ("checkpointLocation", d) ∈ (autoload_to_table a b c d).writer.opts := by
  constructor <;>
    simp [autoload_to_table, spark.readStream, DataStreamReader.format,
      DataStreamReader.option, DataStreamReader.load, DataFrame.writeStream,
      DataStreamWriter.option, DataStreamWriter.table]

/-- C10: the pipeline shape is fixed and independent of the arguments: the
read format is always the literal "cloudFiles", the write options are
always exactly `checkpointLocation` followed by `mergeSchema = "true"`,
and `source_format` occurs only as the value of the `cloudFiles.format`
read option — the remaining fields are exactly the other three arguments. -/
theorem autoload_fixed_pipeline_shape (a b c d : String) :
    (autoload_to_table a b c d).writer.df.reader.fmt = "cloudFiles" ∧
      (autoload_to_table a b c d).writer.df.reader.opts =
        [("cloudFiles.format", b), ("cloudFiles.schemaLocation", d)] ∧
      (autoload_to_table a b c d).writer.df.sourcePath = a ∧
      (autoload_to_table a b c d).writer.opts =
        [("checkpointLocation", d), ("mergeSchema", "true")] ∧
      (autoload_to_table a b c d).tableName = c :=
  ⟨rfl, rfl, rfl, rfl, rfl⟩

/-- C2 counterexample: `autoload_to_table` performs no emptiness validation:
with all four inputs empty it still issues the complete job-start request
(a fully configured `StreamingQuery`), refuting "with some empty input, it
does not start the job". -/
theorem autoload_no_validation_cex :
    autoload_to_table "" "" "" "" =
      ⟨⟨⟨⟨"cloudFiles", [("cloudFiles.format", ""), ("cloudFiles.schemaLocation", "")]⟩,
          ""⟩,
        [("checkpointLocation", ""), ("mergeSchema", "true")]⟩, ""⟩ :=
  rfl

/-- C2 (amended): `autoload_to_table` does not validate its inputs: even when
some input string is empty, it requests the engine start the job, returning
the fully configured query handle built from the arguments as given. -/
theorem autoload_starts_despite_empty_input (a b c d : String)
    (_h : a = "" ∨ b = "" ∨ c = "" ∨ d = "") :
    autoload_to_table a b c d =
      ⟨⟨⟨⟨"cloudFiles", [("cloudFiles.format", b), ("cloudFiles.schemaLocation", d)]⟩,
          a⟩,
        [("checkpointLocation", d), ("mergeSchema", "true")]⟩, c⟩ :=
  rfl

/-- C2 witness: with an empty source directory the job is still started. -/
theorem autoload_starts_despite_empty_input_witness :
    ((("" : String) = "" ∨ ("json" : String) = "" ∨ ("target_table" : String) = "" ∨
        ("ckpt" : String) = "") ∧
      autoload_to_table "" "json" "target_table" "ckpt" =
        ⟨⟨⟨⟨"cloudFiles",
              [("cloudFiles.format", "json"), ("cloudFiles.schemaLocation", "ckpt")]⟩,
            ""⟩,
          [("checkpointLocation", "ckpt"), ("mergeSchema", "true")]⟩, "target_table"⟩) :=
  ⟨Or.inl rfl,
    autoload_starts_despite_empty_input "" "json" "target_table" "ckpt" (Or.inl rfl)⟩

/-- C5: teardown is idempotent — running it twice yields the same end state
as running it once — stopping an already-stopped job leaves it stopped
(a no-op, with no error path since the function is total), and on a state
whose jobs are all already stopped and whose resources are already released,
teardown is the identity. -/
theorem teardown_idempotent (s : SysState) :
    teardown (teardown s) = teardown s ∧
      JobStatus.stop JobStatus.stopped = JobStatus.stopped ∧
      ((∀ j ∈ s.jobs, j = JobStatus.stopped) → s.provisioned = false →
        teardown s = s) := by
  refine ⟨?_, rfl, ?_⟩
  · simp only [teardown, List.map_map]
    exact congrArg (SysState.mk · false)
      (List.map_congr_left fun j _ => JobStatus.stop_stop j)
  · intro hall hprov
    cases s with
    | mk jobs provisioned =>
      simp only [teardown, SysState.mk.injEq]
      refine ⟨?_, hprov.symm⟩
      calc List.map JobStatus.stop jobs
          = List.map id jobs := List.map_congr_left fun j hj => by
              rw [hall j hj]; rfl
        _ = jobs := List.map_id jobs

/-- C5 witness: on a state with one already-stopped job and resources
released, a second teardown changes nothing and the first is a no-op. -/
theorem teardown_idempotent_witness :
    teardown (teardown ⟨[JobStatus.stopped], false⟩) =
        teardown ⟨[JobStatus.stopped], false⟩ ∧
      teardown ⟨[JobStatus.stopped], false⟩ = ⟨[JobStatus.stopped], false⟩ :=
  ⟨(teardown_idempotent ⟨[JobStatus.stopped], false⟩).1,
    (teardown_idempotent ⟨[JobStatus.stopped], false⟩).2.2
      (fun j hj => by simpa using hj) rfl⟩
